import Mathlib

/-!
# Verification of the Debattle verdict pipeline (`api/judge.py`)

A shallow embedding of the deterministic verdict normalization and
enforcement pipeline of `DEBATTLE-BACKEND/api/judge.py`, together with
proofs and refutations of the specified properties.

Modelling conventions:
* Python text is modelled as `List Char` (wrapped in `String` at API
  boundaries); Python `str.strip` / `str.split` / `str.splitlines` are
  embedded character by character (line splitting is on `\n`; the exotic
  Unicode line separators accepted by `str.splitlines` are not modelled,
  which is irrelevant here because blank lines are filtered out anyway).
* Python numbers are modelled exactly: `int` as `ℤ`, `float` as `ℚ`
  (`round` is round-half-to-even, as in Python; `int(x)` truncates
  toward zero).
* The dynamic JSON-like values handled by `enforce_ranges` are modelled
  by the inductive type `Val`; operations that can raise in Python
  (`.get` on a non-dict, item assignment on a non-dict) return `Except`.
* The two regular expressions of the low-content gate are deterministic
  (every quantifier is followed by a character it cannot match), so they
  are embedded as direct character-list matchers.
-/

namespace Debattle

/-! ## Basic text utilities (Python `str` semantics) -/

/-- ASCII whitespace recognised by Python `str.strip` / `\s`. -/
def isWs (c : Char) : Bool :=
  c = ' ' || c = '\t' || c = '\n' || c = '\r' || c = '\x0b' || c = '\x0c'

/-- Python `str.strip()` on a character list. -/
def pyStrip (l : List Char) : List Char :=
  ((l.dropWhile isWs).reverse.dropWhile isWs).reverse

/-- Split a character list on a separator character, Python
`str.split(sep)` style: always at least one (possibly empty) segment. -/
def splitChar (sep : Char) : List Char → List (List Char)
  | [] => [[]]
  | c :: cs =>
    if c = sep then [] :: splitChar sep cs
    else
      match splitChar sep cs with
      | [] => [[c]]
      | s :: ss => (c :: s) :: ss

/-- `"\n".join` of segments (used to rebuild the speech-line text). -/
def joinNl : List (List Char) → List Char
  | [] => []
  | [l] => l
  | l :: ls => l ++ '\n' :: joinNl ls

/-- Python `str.splitlines()` restricted to `\n` separators: no trailing
empty line when the text ends with a newline, and `[]` on empty input. -/
def splitLines (l : List Char) : List (List Char) :=
  match l with
  | [] => []
  | _ =>
    let parts := splitChar '\n' l
    if l.getLast? = some '\n' then parts.dropLast else parts

/-- The sentence-terminal replacement of `_ensure_min_sentences`:
`t.replace("!", ".").replace("?", ".")`. -/
def replPunct (c : Char) : Char :=
  if c = '!' then '.' else if c = '?' then '.' else c

/-- A segment counts when it is non-empty after stripping, i.e. holds a
non-whitespace character (Python `if s.strip()`). -/
def neSeg (s : List Char) : Bool := s.any (fun c => !(isWs c))

/-- The sentence counter of `_ensure_min_sentences`:
`sum(1 for s in t.replace("!",".").replace("?",".").split(".") if s.strip())`. -/
def sentenceCount (t : List Char) : ℕ :=
  ((splitChar '.' (t.map replPunct)).filter neSeg).length

/-- `sentenceCount` on a `String`. -/
def sentenceCountS (s : String) : ℕ := sentenceCount s.data

/-! ## Numeric helpers (Python `round`, `int`, scaling) -/

/-- Python `round` to an integer: round half to even (banker's rounding),
exact on rationals. -/
def pyRound (q : ℚ) : ℤ :=
  let f := ⌊q⌋
  let r := q - f
  if r < 1/2 then f
  else if 1/2 < r then f + 1
  else if Even f then f else f + 1

/-- Python `round(x, 1)`. -/
def roundTo1 (q : ℚ) : ℚ := (pyRound (10 * q) : ℚ) / 10

/-- Python `int(x)` on a float: truncation toward zero. -/
def pytrunc (q : ℚ) : ℤ := if 0 ≤ q then ⌊q⌋ else ⌈q⌉

/-- `scale_to_100(raw_total)`: `round(float(raw_total) / 3.5, 1)`. -/
def scale_to_100 (raw : ℤ) : ℚ := roundTo1 ((raw : ℚ) / (3.5 : ℚ))

/-- Rendering of a one-decimal nonnegative float by a Python f-string,
e.g. `85.7`, `0.0`.  The composed values are always multiples of `1/10`. -/
def fmt1 (q : ℚ) : String :=
  let t : ℤ := ⌊q * 10⌋
  (if q < 0 then "-" else "") ++ toString (t.natAbs / 10) ++ "." ++ toString (t.natAbs % 10)

/-- `margin_label(diff)` of `judge.py`. -/
def margin_label (diff : ℤ) : String :=
  let d := |diff|
  if d ≤ 2 then "very close"
  else if d ≤ 5 then "close but clear"
  else if d ≤ 10 then "clear win"
  else if d ≤ 20 then "dominant win"
  else "overwhelming win"

/-! ## Low-content gate (`is_low_content`, `_extract_payload_text`)

The two patterns are
`re.match(r"\[\d{2}:\d{2}\s+(AFF|NEG)-", ln)` for counting speech lines,
and `re.sub(r"\[\d{2}:\d{2}\s+(AFF|NEG)-[^\]]+\]\s*", "", text)` for
stripping tags.  Both are deterministic: each greedy quantifier is
followed by a character its class cannot match, so greedy maximal
munching has no backtracking alternatives. -/

/-- After `\[\d{2}:\d{2}`: `\s+` then `(AFF|NEG)` then `-` (prefix
match used by `is_low_content` line counting). -/
def sideTagAfterWs (l : List Char) : Bool :=
  match l with
  | c :: rest =>
    isWs c &&
      (let r := rest.dropWhile isWs
       ("AFF-".data.isPrefixOf r || "NEG-".data.isPrefixOf r))
  | [] => false

/-- `re.match(r"\[\d{2}:\d{2}\s+(AFF|NEG)-", line)` as a Bool. -/
def matchesTag (l : List Char) : Bool :=
  match l with
  | '[' :: d1 :: d2 :: ':' :: d3 :: d4 :: rest =>
    d1.isDigit && d2.isDigit && d3.isDigit && d4.isDigit && sideTagAfterWs rest
  | _ => false

/-- One attempted match of `\[\d{2}:\d{2}\s+(AFF|NEG)-[^\]]+\]\s*` at the
head of `l`; on success returns the remainder after the matched span. -/
def tryTagMatch (l : List Char) : Option (List Char) :=
  match l with
  | '[' :: d1 :: d2 :: ':' :: d3 :: d4 :: c :: rest =>
    if d1.isDigit && d2.isDigit && d3.isDigit && d4.isDigit && isWs c then
      let r := rest.dropWhile isWs
      let r2 := if "AFF-".data.isPrefixOf r then some (r.drop 4)
                else if "NEG-".data.isPrefixOf r then some (r.drop 4)
                else Option.none
      match r2 with
      | some r3 =>
        let body := r3.takeWhile (fun ch => !(ch = ']'))
        let rest3 := r3.dropWhile (fun ch => !(ch = ']'))
        if body.isEmpty then Option.none
        else
          match rest3 with
          | ']' :: rest4 => some (rest4.dropWhile isWs)
          | _ => Option.none
      | Option.none => Option.none
    else Option.none
  | _ => Option.none

/-- `re.sub(pattern, "", text)` scanning left to right.  The fuel is the
text length; every successful match consumes at least one character, so
the fuel never runs out before the text does. -/
def subTagsAux : ℕ → List Char → List Char
  | 0, l => l
  | _ + 1, [] => []
  | n + 1, c :: cs =>
    match tryTagMatch (c :: cs) with
    | some rest => subTagsAux n rest
    | Option.none => c :: subTagsAux n cs

/-- Delete every occurrence of the tag pattern (the `re.sub` of
`_extract_payload_text`). -/
def subTags (l : List Char) : List Char := subTagsAux l.length l

/-- `_extract_payload_text`: strip tags, then `str.strip`. -/
def extract_payload_text (l : List Char) : List Char := pyStrip (subTags l)

def LOW_CONTENT_SPEECH_MIN : ℕ := 3
def LOW_CONTENT_CHAR_MIN : ℕ := 120

/-- The non-blank lines of the transcript (`if ln.strip()`). -/
def contentLines (t : String) : List (List Char) :=
  (splitLines t.data).filter (fun ln => !(pyStrip ln).isEmpty)

/-- The lines matching the speech-tag pattern. -/
def speechLines (t : String) : List (List Char) :=
  (contentLines t).filter matchesTag

/-- The payload computed by `is_low_content`:
`_extract_payload_text("\n".join(speech_lines))`. -/
def gatePayload (t : String) : List Char :=
  extract_payload_text (joinNl (speechLines t))

/-- `is_low_content(transcript_text)` of `judge.py`. -/
def is_low_content (t : String) : Bool :=
  if t.data.isEmpty || (pyStrip t.data).isEmpty then true
  else
    decide ((speechLines t).length < LOW_CONTENT_SPEECH_MIN) ||
    decide ((gatePayload t).length < LOW_CONTENT_CHAR_MIN)

/-! ## Dynamic JSON-like values and `enforce_ranges` (`_clip`)

`enforce_ranges` receives the raw parsed model response, which can have
any JSON shape.  Python dict/attribute semantics are embedded over `Val`:
`x.get(k, d)` raises `AttributeError` on a non-dict, `x[k] = v` raises
`TypeError` on a non-dict. -/

inductive Val where
  | vNone : Val
  | vBool (b : Bool) : Val
  | vInt (n : ℤ) : Val
  | vFloat (q : ℚ) : Val
  | vStr (s : String) : Val
  | vList (xs : List Val) : Val
  | vDict (es : List (String × Val)) : Val

def Val.isDict : Val → Bool
  | .vDict _ => true
  | _ => false

inductive PyError where
  | attributeError : PyError
  | typeError : PyError
deriving DecidableEq

/-- Parse a decimal numeral, Python `float(str)` on the plain
`[+-]?digits[.digits]` forms (scientific notation, `inf`/`nan` and
digit underscores, which Python also accepts, are not modelled; the
claims only distinguish succeeding from failing coercions). -/
def parseDecimal (l : List Char) : Option ℚ :=
  let l := pyStrip l
  let core : List Char → Option ℚ := fun m =>
    let ip := m.takeWhile Char.isDigit
    let rest := m.dropWhile Char.isDigit
    let ok : Option (List Char) :=
      match rest with
      | [] => some []
      | '.' :: fp => if fp.all Char.isDigit then some fp else Option.none
      | _ => Option.none
    match ok with
    | some fp =>
      if ip.isEmpty && fp.isEmpty then Option.none
      else
        let ipv : ℕ := ip.foldl (fun a c => a * 10 + (c.toNat - 48)) 0
        let fpv : ℕ := fp.foldl (fun a c => a * 10 + (c.toNat - 48)) 0
        some ((ipv : ℚ) + (fpv : ℚ) / ((10 : ℚ) ^ fp.length))
    | Option.none => Option.none
  match l with
  | '-' :: m => (core m).map (fun q => -q)
  | '+' :: m => core m
  | m => core m

/-- Python `float(v)` as a partial coercion: numbers and bools convert,
numeric strings parse, everything else (`None`, lists, dicts,
non-numeric strings) raises, which `_clip` catches. -/
def pyFloatCoerce : Val → Option ℚ
  | .vBool b => some (if b then 1 else 0)
  | .vInt n => some (n : ℚ)
  | .vFloat q => some q
  | .vStr s => parseDecimal s.data
  | _ => Option.none

/-- `_clip(v, lo, hi)`:
`try: return max(lo, min(hi, float(v)))` / `except: return lo`. -/
def clip (v : Val) (lo hi : ℚ) : ℚ :=
  match pyFloatCoerce v with
  | some x => max lo (min hi x)
  | Option.none => lo

/-- The per-field idiom of `enforce_ranges`: `int(_clip(v, 0, hi))`. -/
def int_clip (v : Val) (hi : ℚ) : ℤ := pytrunc (clip v 0 hi)

/-- `x.get(k, d)`: `AttributeError` unless `x` is a dict. -/
def dictGet (v : Val) (k : String) (d : Val) : Except PyError Val :=
  match v with
  | .vDict es => .ok ((es.lookup k).getD d)
  | _ => .error .attributeError

/-- Update-or-append on an association list (Python dict assignment). -/
def setEntry (es : List (String × Val)) (k : String) (x : Val) : List (String × Val) :=
  match es with
  | [] => [(k, x)]
  | (k', v') :: rest =>
    if k' = k then (k, x) :: rest else (k', v') :: setEntry rest k x

/-- `x[k] = v`: `TypeError` unless `x` is a dict. -/
def dictSet (v : Val) (k : String) (x : Val) : Except PyError Val :=
  match v with
  | .vDict es => .ok (.vDict (setEntry es k x))
  | _ => .error .typeError

/-- Body of the speaker loop of `enforce_ranges`:
`s["matter"] = int(_clip(s.get("matter", 0), 0, 40))` and likewise
`manner`/`method` with cap 30. -/
def sanitizeSpeaker (s : Val) : Except PyError Val := do
  let m ← dictGet s "matter" (.vInt 0)
  let s ← dictSet s "matter" (.vInt (int_clip m 40))
  let m ← dictGet s "manner" (.vInt 0)
  let s ← dictSet s "manner" (.vInt (int_clip m 30))
  let m ← dictGet s "method" (.vInt 0)
  let s ← dictSet s "method" (.vInt (int_clip m 30))
  pure s

/-- The reply clamping of `enforce_ranges` (caps 20/15/15). -/
def sanitizeReply (rep : Val) : Except PyError Val := do
  let m ← dictGet rep "matter" (.vInt 0)
  let rep ← dictSet rep "matter" (.vInt (int_clip m 20))
  let m ← dictGet rep "manner" (.vInt 0)
  let rep ← dictSet rep "manner" (.vInt (int_clip m 15))
  let m ← dictGet rep "method" (.vInt 0)
  let rep ← dictSet rep "method" (.vInt (int_clip m 15))
  pure rep

/-- One side of the `for side in [...]` loop of `enforce_ranges`:
fetch and clamp `speaker1..3`, then `reply`, storing each back. -/
def sanitizeSide (sideObj : Val) : Except PyError Val := do
  let s1 ← dictGet sideObj "speaker1" (.vDict [])
  let s1 ← sanitizeSpeaker s1
  let sideObj ← dictSet sideObj "speaker1" s1
  let s2 ← dictGet sideObj "speaker2" (.vDict [])
  let s2 ← sanitizeSpeaker s2
  let sideObj ← dictSet sideObj "speaker2" s2
  let s3 ← dictGet sideObj "speaker3" (.vDict [])
  let s3 ← sanitizeSpeaker s3
  let sideObj ← dictSet sideObj "speaker3" s3
  let rep ← dictGet sideObj "reply" (.vDict [])
  let rep ← sanitizeReply rep
  let sideObj ← dictSet sideObj "reply" rep
  pure sideObj

/-- `enforce_ranges(result)` of `judge.py`.  A non-dict argument is
returned unchanged (`if not isinstance(result, dict): return result`);
otherwise `scores = result.get("scores", {})` and both sides are
clamped and stored back. -/
def enforce_ranges (result : Val) : Except PyError Val :=
  match result with
  | .vDict _ => do
    let scores ← dictGet result "scores" (.vDict [])
    let aff ← dictGet scores "affirmative" (.vDict [])
    let aff ← sanitizeSide aff
    let scores ← dictSet scores "affirmative" aff
    let neg ← dictGet scores "negative" (.vDict [])
    let neg ← sanitizeSide neg
    let scores ← dictSet scores "negative" neg
    let result ← dictSet result "scores" scores
    pure result
  | v => .ok v

/-- Total field access with the `{}` default of the `.get` calls of
`enforce_ranges` (used only to state the shape condition below). -/
def vFieldD (v : Val) (k : String) : Val :=
  match v with
  | .vDict es => (es.lookup k).getD (.vDict [])
  | _ => .vDict []

/-- Shape condition under which `enforce_ranges` cannot raise: the
top-level value is a dict whose `scores` entry (defaulting to `{}`) is a
dict, whose side entries (defaulting to `{}`) are dicts, whose
`speaker1..3`/`reply` entries (defaulting to `{}`) are dicts. -/
def scoresShapeOk (result : Val) : Bool :=
  result.isDict &&
    (vFieldD result "scores").isDict &&
    (["affirmative", "negative"].all fun side =>
      (vFieldD (vFieldD result "scores") side).isDict &&
      (["speaker1", "speaker2", "speaker3", "reply"].all fun k =>
        (vFieldD (vFieldD (vFieldD result "scores") side) k).isDict))

/-! ## Typed verdict model and the analysis/aggregation stages

After numeric sanitization and schema validation the verdict has a fixed
shape; the remaining stages (`ensure_analysis_defaults`,
`compute_totals`, the tie-break, `rebalance_notable_moves` and the final
statement) are embedded over typed records.  The `totals` and
`final_statement` keys that `main` adds to the result dict are carried
as record fields (placeholder values before the pipeline sets them). -/

def SPEECH_SLOTS : List String := ["First Speech", "Second Speech", "Third Speech", "Reply"]

structure Move where
  time : String
  label : String
  explanation : String
deriving DecidableEq, Repr

structure SideAnalysis where
  overview : String
  improvements : String
  notable_moves : List Move
deriving DecidableEq, Repr

structure Analysis where
  affirmative : SideAnalysis
  negative : SideAnalysis
deriving DecidableEq, Repr

structure Score3 where
  matter : ℤ
  manner : ℤ
  method : ℤ
  notes : String
deriving DecidableEq, Repr

structure SideScores where
  speaker1 : Score3
  speaker2 : Score3
  speaker3 : Score3
  reply : Score3
deriving DecidableEq, Repr

structure Scores where
  affirmative : SideScores
  negative : SideScores
deriving DecidableEq, Repr

structure Rationale where
  summary : String
  why_winner : String
  key_clashes : List String
deriving DecidableEq, Repr

structure Verdict where
  scores : Scores
  winner : String
  rationale : Rationale
  analysis : Analysis
  totalsAff : ℤ
  totalsNeg : ℤ
  final_statement : String
deriving DecidableEq, Repr

/-- The three hand-authored filler sentences of `_ensure_min_sentences`. -/
def additions : List String :=
  [ "They framed the weighing early and attempted to collapse the round onto the decisive clashes.",
    "Comparative analysis connected claims to explicit impacts, although some links could be clearer.",
    "Time allocation and signposting generally supported flow and judge comprehension." ]

/-- The `while count < min_sents and additions:` loop of
`_ensure_min_sentences`: `t = (t + " " + additions.pop(0)).strip()`
with `count += 1` (the count is not recomputed from the text). -/
def emsLoop : List Char → ℕ → ℕ → List (List Char) → List Char
  | t, _, _, [] => t
  | t, count, minS, a :: rest =>
    if count < minS then emsLoop (pyStrip (t ++ ' ' :: a)) (count + 1) minS rest
    else t

/-- `_ensure_min_sentences(text, min_sents)` of `judge.py`. -/
def ensureMinSentences (text : String) (minSents : ℕ) : String :=
  let t := pyStrip text.data
  let c := sentenceCount t
  if minSents ≤ c then ⟨t⟩
  else ⟨emsLoop t c minSents (additions.map String.data)⟩

/-- `_expand_move(label, seed)` of `judge.py`. -/
def expandMove (label : String) (seed : String) : String :=
  let extra :=
    if label = "brilliant" then
      " It combined clean warranting with timing that flipped a contested issue. The downstream impact shaped the judge\x27s weighing."
    else if label = "great" then
      " It advanced the team\x27s win condition with precise comparative work. The explanation connected claim to impact without new matter."
    else if label = "good" then
      " Solid structure and relevance maintained flow control. A clearer explicit impact link could make it round-deciding."
    else if label = "inaccuracy" then
      " A factual/comparative slip reduced credibility and opened room for opponent leverage. Correct sourcing and line-by-line precision would fix this."
    else
      " Dropping or mishandling a critical line ceded weighing to the opponent. Always address the win-condition clash before extending new material."
  let text :=
    (if seed = "" then "A notable contribution occurred at a pivotal moment." else seed) ++ extra
  ensureMinSentences text 2

/-- `_overview_fallback(side_name, transcript)` (the transcript argument
is unused in the source as well). -/
def overviewFallback (sideName : String) (_transcript : String) : String :=
  ensureMinSentences ("The " ++ sideName ++
    " team presented a coherent case with clear signposting and attempted to control the weighing mechanism. They engaged core clashes, extending key material while addressing opponent pressure. Evidence use was directionally sound, though several claims would benefit from tighter warrants and explicit impact calculus tied to feasibility, risk, and timeframe.") 4

/-- `_improvements_fallback(side_name)`. -/
def improvementsFallback (sideName : String) : String :=
  ensureMinSentences (sideName ++
    " can improve by tightening comparative weighing earlier, frontloading the round-winning mechanism, and backing asserted links with a concrete warrant (study, example, or model). They should also avoid assertion-by-repetition by collapsing onto the strongest contention and making explicit, line-by-line resolution of the main clashes.") 4

/-- The default move appended by `_assign_speech_slots` while padding. -/
def padMove : Move :=
  { time := "", label := "good",
    explanation := "A generally solid contribution with clear structure and relevance." }

/-- `SPEECH_SLOTS[i]` (every use has `i < 4`). -/
def slotAt (i : ℕ) : String := (SPEECH_SLOTS.drop i).headD ("")

/-- The positional `m["time"] = SPEECH_SLOTS[i]` loop. -/
def setTimes : List String → List Move → List Move
  | _, [] => []
  | [], ms => ms
  | s :: ss, m :: ms => { m with time := s } :: setTimes ss ms

/-- `_assign_speech_slots(moves)`: pad with `good` defaults to length 4,
trim to 4, then overwrite `time` positionally with the fixed slot names. -/
def assignSpeechSlots (moves : List Move) : List Move :=
  let padded := moves ++ List.replicate (4 - moves.length) padMove
  setTimes SPEECH_SLOTS (padded.take 4)

def enumLabels : List String := ["brilliant", "great", "good", "inaccuracy", "blunder"]

/-- Normalization of one model move inside `ensure_analysis_defaults`:
empty/unrecognized labels become `good` (after lowercasing), the
explanation is expanded, the time is stripped. -/
def normOneMove (m : Move) : Move :=
  let lbl0 := (if m.label = "" then "good" else m.label).toLower
  let lbl := if enumLabels.contains lbl0 then lbl0 else "good"
  { time := ⟨pyStrip m.time.data⟩, label := lbl,
    explanation := expandMove lbl ⟨pyStrip m.explanation.data⟩ }

/-- The default move appended by `ensure_analysis_defaults` while
padding `norm` to 4 entries. -/
def normDefaultMove : Move :=
  { time := "", label := "good",
    explanation := expandMove ("good")
      ("A generally solid contribution with clear structure and relevance.") }

/-- The overview branch of `ensure_analysis_defaults` for one side. -/
def normalizeOverview (sideName : String) (transcript : String) (ov : String) : String :=
  let ovS := pyStrip ov.data
  if ovS.isEmpty then overviewFallback sideName transcript
  else ensureMinSentences ⟨ovS⟩ 4

/-- The improvements branch of `ensure_analysis_defaults` for one side. -/
def normalizeImprovements (sideName : String) (imp : String) : String :=
  let impS := pyStrip imp.data
  if impS.isEmpty then improvementsFallback sideName
  else ensureMinSentences ⟨impS⟩ 4

/-- One side of `ensure_analysis_defaults`. -/
def normalizeSideAnalysis (sideName : String) (transcript : String)
    (blob : SideAnalysis) : SideAnalysis :=
  let norm := blob.notable_moves.map normOneMove
  let padded := norm ++ List.replicate (4 - norm.length) normDefaultMove
  { overview := normalizeOverview sideName transcript blob.overview,
    improvements := normalizeImprovements sideName blob.improvements,
    notable_moves := assignSpeechSlots padded }

/-- `ensure_analysis_defaults(result, transcript_text)`. -/
def ensure_analysis_defaults (v : Verdict) (transcript : String) : Verdict :=
  { v with analysis :=
      { affirmative := normalizeSideAnalysis ("AFFIRMATIVE") transcript v.analysis.affirmative,
        negative := normalizeSideAnalysis ("NEGATIVE") transcript v.analysis.negative } }

/-! ### `rebalance_notable_moves` -/

def POS_LABELS : List String := ["brilliant", "great"]
def NEG_LABELS : List String := ["inaccuracy", "blunder"]

/-- `moves[i]["explanation"]` if `i < len(moves)` else `""`. -/
def seedAt (moves : List Move) (i : ℕ) : String :=
  match moves.drop i with
  | m :: _ => m.explanation
  | [] => ""

/-- One entry built by the `for i, label in enumerate(target)` loop of
`force_distribution`. -/
def fdMove (moves : List Move) (i : ℕ) (label : String) : Move :=
  { time := slotAt i, label := label, explanation := expandMove label (seedAt moves i) }

/-- `force_distribution(moves, want_positive_majority)`: replace the four
moves with the canonical label template, seeding each explanation from
the prior move at the same index. -/
def forceDistribution (moves : List Move) (wantPositiveMajority : Bool) : List Move :=
  if wantPositiveMajority then
    [fdMove moves 0 ("brilliant"), fdMove moves 1 ("great"),
     fdMove moves 2 ("good"), fdMove moves 3 ("inaccuracy")]
  else
    [fdMove moves 0 ("inaccuracy"), fdMove moves 1 ("blunder"),
     fdMove moves 2 ("good"), fdMove moves 3 ("great")]

/-- The `is_winner` condition of `rebalance_notable_moves`. -/
def isWinnerSide (winner side : String) : Bool :=
  winner != "TIE" &&
    ((winner == "AFFIRMATIVE" && side == "affirmative") ||
     (winner == "NEGATIVE" && side == "negative"))

/-- One side of the loop of `rebalance_notable_moves`. -/
def rebalanceSide (winner side : String) (sa : SideAnalysis) : SideAnalysis :=
  let moves := assignSpeechSlots sa.notable_moves
  { sa with notable_moves :=
      assignSpeechSlots (forceDistribution moves (isWinnerSide winner side)) }

/-- `rebalance_notable_moves(result, winner)`. -/
def rebalance_notable_moves (v : Verdict) (winner : String) : Verdict :=
  { v with analysis :=
      { affirmative := rebalanceSide winner ("affirmative") v.analysis.affirmative,
        negative := rebalanceSide winner ("negative") v.analysis.negative } }

/-- Positive-label counter (the `--debug` counter of `main`). -/
def countPos (ms : List Move) : ℕ :=
  (ms.filter (fun m => POS_LABELS.contains m.label)).length

/-- Negative-label counter (the `--debug` counter of `main`). -/
def countNeg (ms : List Move) : ℕ :=
  (ms.filter (fun m => NEG_LABELS.contains m.label)).length

def labelsOf (ms : List Move) : List String := ms.map Move.label

/-! ### Totals, tie-break, final statement, low-content result -/

/-- `weighted_total_speaker` / `weighted_total_reply` (identical sums). -/
def weightedTotal (s : Score3) : ℤ := s.matter + s.manner + s.method

/-- `compute_totals(result)` as an (affirmative, negative) pair. -/
def compute_totals (v : Verdict) : ℤ × ℤ :=
  (weightedTotal v.scores.affirmative.speaker1 + weightedTotal v.scores.affirmative.speaker2 +
     weightedTotal v.scores.affirmative.speaker3 + weightedTotal v.scores.affirmative.reply,
   weightedTotal v.scores.negative.speaker1 + weightedTotal v.scores.negative.speaker2 +
     weightedTotal v.scores.negative.speaker3 + weightedTotal v.scores.negative.reply)

/-- The TIE override of `main` (step 5): a declared TIE is overridden to
the side with the strictly higher raw total when `abs(diff) >= 1`. -/
def tieBreakWinner (declared : String) (ta tn : ℤ) : String :=
  if declared = "TIE" then
    let diff := ta - tn
    if 1 ≤ |diff| then (if 0 < diff then "AFFIRMATIVE" else "NEGATIVE") else declared
  else declared

/-- The final statement of `main` (step 7). -/
def finalStatement (ta tn : ℤ) : String :=
  let affScaled := scale_to_100 ta
  let negScaled := scale_to_100 tn
  let diffRaw := ta - tn
  let diffScaled := roundTo1 |affScaled - negScaled|
  if diffRaw = 0 then
    "The round is a TIE. Final (/100): AFF " ++ fmt1 affScaled ++ " - NEG " ++ fmt1 negScaled ++ "."
  else
    let winnerSide := if 0 < diffRaw then "AFFIRMATIVE" else "NEGATIVE"
    "Congratulations, Team " ++ winnerSide ++ "! You win by " ++ fmt1 diffScaled ++
      " points (" ++ margin_label diffRaw ++ "). Final (/100): AFF " ++ fmt1 affScaled ++
      " - NEG " ++ fmt1 negScaled ++ "."

def zeroScore : Score3 := { matter := 0, manner := 0, method := 0, notes := "" }

def zeroSide : SideScores :=
  { speaker1 := zeroScore, speaker2 := zeroScore, speaker3 := zeroScore, reply := zeroScore }

/-- `empty_result()` of `judge.py` (the `totals`/`final_statement` keys
do not exist yet; their record fields carry placeholder values). -/
def empty_result : Verdict :=
  { scores := { affirmative := zeroSide, negative := zeroSide },
    winner := "TIE",
    rationale :=
      { summary := "Insufficient material: there were not enough substantive speeches to evaluate the round.",
        why_winner := "No winner — both teams provided insufficient content.",
        key_clashes := [] },
    analysis :=
      { affirmative :=
          { overview := "No substantive speeches recorded for AFF.",
            improvements := "Deliver required speeches with claims, warrants, and comparison.",
            notable_moves := [] },
        negative :=
          { overview := "No substantive speeches recorded for NEG.",
            improvements := "Deliver required speeches with claims, warrants, and comparison.",
            notable_moves := [] } },
    totalsAff := 0, totalsNeg := 0, final_statement := "" }

/-- The verdict built by the low-content short-circuit of `main`:
`empty_result()` plus zero totals and the TIE final statement. -/
def lowContentResult : Verdict :=
  { empty_result with
    totalsAff := 0,
    totalsNeg := 0,
    final_statement := "The round is a TIE. Final (/100): AFF " ++ fmt1 (scale_to_100 0) ++
      " - NEG " ++ fmt1 (scale_to_100 0) ++ "." }

/-- Steps 3–7 of `main` after the model call (numeric sanitization acts
on the dynamic representation and is modelled separately by
`enforce_ranges`; schema validation does not change the typed value):
analysis defaults, totals, TIE override, hard rebalance, final
statement. -/
def pipelineAfterModel (m : Verdict) (t : String) : Verdict :=
  let r1 := ensure_analysis_defaults m t
  let totals := compute_totals r1
  let w := tieBreakWinner r1.winner totals.1 totals.2
  let r2 := { r1 with winner := w }
  let r3 := rebalance_notable_moves r2 w
  { r3 with
    totalsAff := totals.1,
    totalsNeg := totals.2,
    final_statement := finalStatement totals.1 totals.2 }

/-- `main`'s dispatch on the low-content gate: the model response is
consulted only on the non-low-content branch. -/
def judgeOutput (t : String) (modelResult : Verdict) : Verdict :=
  if is_low_content t then lowContentResult else pipelineAfterModel modelResult t

/-- `DEFAULT_TRANSCRIPT()` of `judge.py`. -/
def DEFAULT_TRANSCRIPT : String :=
  "[00:00 AFF-1] Defines key terms clearly; claims policy X reduces emissions using Smith (2023).\n[03:00 NEG-1] Challenges definition scope; says Smith uses extreme scenario; presents alternative evidence.\n[06:00 AFF-2] Extends with infrastructure risk and cost-benefit; rebuts scenario critique.\n[09:00 NEG-2] Pushes adaptation argument with Jones (2024); says costs lower than claimed.\n[12:00 AFF-3] Heavy rebuttal on adaptation residual risk; synthesises case; no new matter.\n[15:00 NEG-3] Rebuttal on feasibility; (no new matter).\n[18:00 AFF-Reply] Compares feasibility vs residual risk; frames why AFF wins.\n[20:00 NEG-Reply] Compares on costs and realism; claims NEG wins on practicality.\n"

/-! ### Proof-side abbreviations for the sentence-counting argument -/

/-- Glue two segment lists at the boundary (the shape of
`splitChar sep (a ++ b)`). -/
def sdAppend : List (List Char) → List (List Char) → List (List Char)
  | [], ys => ys
  | x :: xs, ys =>
    match xs with
    | [] => (match ys with | [] => [x] | y :: yt => (x ++ y) :: yt)
    | _ :: _ => x :: sdAppend xs ys

/-- Number of non-blank segments (the quantity counted by
`_ensure_min_sentences`). -/
def nsc (xss : List (List Char)) : ℕ := (xss.filter neSeg).length

/-- The filler texts of `_ensure_min_sentences` as character lists, and
the suffixes appended by one, two or three loop iterations (proof
abbreviations). -/
def fillerA : List Char :=
  ("They framed the weighing early and attempted to collapse the round onto the decisive clashes.").data

def fillerB : List Char :=
  ("Comparative analysis connected claims to explicit impacts, although some links could be clearer.").data

def fillerC : List Char :=
  ("Time allocation and signposting generally supported flow and judge comprehension.").data

def lcSuffix1 : List Char := ' ' :: fillerA

def lcSuffix2 : List Char := ' ' :: (fillerA ++ ' ' :: fillerB)

def lcSuffix3 : List Char := ' ' :: (fillerA ++ ' ' :: (fillerB ++ ' ' :: fillerC))

/-! ## Lemmas about the rebalancer -/

lemma isWinnerSide_aff (w : String) : isWinnerSide w ("affirmative") = (w == "AFFIRMATIVE") := by
  by_cases hw : w = "AFFIRMATIVE"
  · subst hw; rfl
  · have h1 : (w == "AFFIRMATIVE") = false := beq_eq_false_iff_ne.mpr hw
    simp [isWinnerSide, h1]

lemma isWinnerSide_neg (w : String) : isWinnerSide w ("negative") = (w == "NEGATIVE") := by
  by_cases hw : w = "NEGATIVE"
  · subst hw; rfl
  · have h1 : (w == "NEGATIVE") = false := beq_eq_false_iff_ne.mpr hw
    simp [isWinnerSide, h1]

lemma rebalanceSide_labels (w side : String) (sa : SideAnalysis) :
    labelsOf (rebalanceSide w side sa).notable_moves =
      (if isWinnerSide w side then ["brilliant", "great", "good", "inaccuracy"]
       else ["inaccuracy", "blunder", "good", "great"]) := by
  cases h : isWinnerSide w side <;> simp only [rebalanceSide, h] <;> rfl

lemma rebalanceSide_pos (w side : String) (sa : SideAnalysis) :
    countPos (rebalanceSide w side sa).notable_moves = (if isWinnerSide w side then 2 else 1) := by
  cases h : isWinnerSide w side <;> simp only [rebalanceSide, h] <;> rfl

lemma rebalanceSide_neg (w side : String) (sa : SideAnalysis) :
    countNeg (rebalanceSide w side sa).notable_moves = (if isWinnerSide w side then 1 else 2) := by
  cases h : isWinnerSide w side <;> simp only [rebalanceSide, h] <;> rfl

lemma rebalanceSide_len (w side : String) (sa : SideAnalysis) :
    (rebalanceSide w side sa).notable_moves.length = 4 := by
  cases h : isWinnerSide w side <;> simp only [rebalanceSide, h] <;> rfl

lemma rebalanceSide_times (w side : String) (sa : SideAnalysis) :
    (rebalanceSide w side sa).notable_moves.map Move.time = SPEECH_SLOTS := by
  cases h : isWinnerSide w side <;> simp only [rebalanceSide, h] <;> rfl

/-! ## Claim theorems: rebalancer and aggregation -/

/-- C1: for every verdict whose finalized winner is AFFIRMATIVE or
NEGATIVE, after `rebalance_notable_moves` the winning side's four
notable-move labels contain strictly more positive labels
(brilliant/great) than negative labels (inaccuracy/blunder) and the
losing side's strictly more negative than positive, for every input
move list (the rebalancer pads/truncates internally). -/
theorem rebalance_winner_label_majority (v : Verdict) (w : String) :
    (w = "AFFIRMATIVE" →
      countNeg ((rebalance_notable_moves v w).analysis.affirmative.notable_moves) <
        countPos ((rebalance_notable_moves v w).analysis.affirmative.notable_moves) ∧
      countPos ((rebalance_notable_moves v w).analysis.negative.notable_moves) <
        countNeg ((rebalance_notable_moves v w).analysis.negative.notable_moves)) ∧
    (w = "NEGATIVE" →
      countNeg ((rebalance_notable_moves v w).analysis.negative.notable_moves) <
        countPos ((rebalance_notable_moves v w).analysis.negative.notable_moves) ∧
      countPos ((rebalance_notable_moves v w).analysis.affirmative.notable_moves) <
        countNeg ((rebalance_notable_moves v w).analysis.affirmative.notable_moves)) := by
  constructor
  · intro hw; subst hw
    constructor
    · show countNeg (rebalanceSide _ _ _).notable_moves < countPos (rebalanceSide _ _ _).notable_moves
      rw [rebalanceSide_pos, rebalanceSide_neg, isWinnerSide_aff]
      decide
    · show countPos (rebalanceSide _ _ _).notable_moves < countNeg (rebalanceSide _ _ _).notable_moves
      rw [rebalanceSide_pos, rebalanceSide_neg, isWinnerSide_neg]
      decide
  · intro hw; subst hw
    constructor
    · show countNeg (rebalanceSide _ _ _).notable_moves < countPos (rebalanceSide _ _ _).notable_moves
      rw [rebalanceSide_pos, rebalanceSide_neg, isWinnerSide_neg]
      decide
    · show countPos (rebalanceSide _ _ _).notable_moves < countNeg (rebalanceSide _ _ _).notable_moves
      rw [rebalanceSide_pos, rebalanceSide_neg, isWinnerSide_aff]
      decide

/-- Witness for C1 at a concrete verdict and winner. -/
theorem rebalance_winner_label_majority_witness :
    countNeg ((rebalance_notable_moves empty_result ("AFFIRMATIVE")).analysis.affirmative.notable_moves) <
      countPos ((rebalance_notable_moves empty_result ("AFFIRMATIVE")).analysis.affirmative.notable_moves) :=
  ((rebalance_winner_label_majority empty_result ("AFFIRMATIVE")).1 rfl).1

/-- C9: `rebalance_notable_moves` is idempotent on labels — re-running
it with the same finalized winner yields identical per-side label
sequences. -/
theorem rebalance_idempotent_labels (v : Verdict) (w : String) :
    labelsOf ((rebalance_notable_moves (rebalance_notable_moves v w) w).analysis.affirmative.notable_moves) =
      labelsOf ((rebalance_notable_moves v w).analysis.affirmative.notable_moves) ∧
    labelsOf ((rebalance_notable_moves (rebalance_notable_moves v w) w).analysis.negative.notable_moves) =
      labelsOf ((rebalance_notable_moves v w).analysis.negative.notable_moves) := by
  constructor
  · show labelsOf (rebalanceSide _ _ _).notable_moves = labelsOf (rebalanceSide _ _ _).notable_moves
    rw [rebalanceSide_labels, rebalanceSide_labels]
  · show labelsOf (rebalanceSide _ _ _).notable_moves = labelsOf (rebalanceSide _ _ _).notable_moves
    rw [rebalanceSide_labels, rebalanceSide_labels]

/-- C10: with a finalized TIE, both sides receive the losing label
template `[inaccuracy, blunder, good, great]`; a side receives the
winning template `[brilliant, great, good, inaccuracy]` exactly when the
winner names that side explicitly. -/
theorem tie_gets_losing_template (v : Verdict) (w : String) :
    (labelsOf ((rebalance_notable_moves v ("TIE")).analysis.affirmative.notable_moves) =
        ["inaccuracy", "blunder", "good", "great"] ∧
     labelsOf ((rebalance_notable_moves v ("TIE")).analysis.negative.notable_moves) =
        ["inaccuracy", "blunder", "good", "great"]) ∧
    (labelsOf ((rebalance_notable_moves v w).analysis.affirmative.notable_moves) =
        ["brilliant", "great", "good", "inaccuracy"] ↔ w = "AFFIRMATIVE") ∧
    (labelsOf ((rebalance_notable_moves v w).analysis.negative.notable_moves) =
        ["brilliant", "great", "good", "inaccuracy"] ↔ w = "NEGATIVE") := by
  refine ⟨⟨?_, ?_⟩, ?_, ?_⟩
  · show labelsOf (rebalanceSide _ _ _).notable_moves = _
    rw [rebalanceSide_labels, isWinnerSide_aff]; decide
  · show labelsOf (rebalanceSide _ _ _).notable_moves = _
    rw [rebalanceSide_labels, isWinnerSide_neg]; decide
  · show labelsOf (rebalanceSide _ _ _).notable_moves = _ ↔ _
    rw [rebalanceSide_labels, isWinnerSide_aff]
    by_cases hw : w = "AFFIRMATIVE"
    · subst hw; simp
    · have h1 : (w == "AFFIRMATIVE") = false := beq_eq_false_iff_ne.mpr hw
      simp [h1, hw]
  · show labelsOf (rebalanceSide _ _ _).notable_moves = _ ↔ _
    rw [rebalanceSide_labels, isWinnerSide_neg]
    by_cases hw : w = "NEGATIVE"
    · subst hw; simp
    · have h1 : (w == "NEGATIVE") = false := beq_eq_false_iff_ne.mpr hw
      simp [h1, hw]

/-- C4: a declared TIE is overridden to the side with the strictly
higher raw total whenever the totals differ (`abs(diff) >= 1`), TIE is
preserved exactly on equal totals, and a declared AFFIRMATIVE/NEGATIVE
winner is never changed. -/
theorem tie_break_spec (d : String) (ta tn : ℤ) :
    (d ≠ "TIE" → tieBreakWinner d ta tn = d) ∧
    (tieBreakWinner ("TIE") ta tn = "TIE" ↔ ta = tn) ∧
    (tn < ta → tieBreakWinner ("TIE") ta tn = "AFFIRMATIVE") ∧
    (ta < tn → tieBreakWinner ("TIE") ta tn = "NEGATIVE") := by
  refine ⟨?_, ⟨?_, ?_⟩, ?_, ?_⟩
  · intro h; simp only [tieBreakWinner, if_neg h]
  · intro hres
    by_contra hne
    have h1 : 1 ≤ |ta - tn| := Int.one_le_abs (sub_ne_zero.mpr hne)
    by_cases hpos : 0 < ta - tn
    · simp only [tieBreakWinner, if_pos rfl, if_pos h1, if_pos hpos] at hres
      exact absurd hres (by decide)
    · simp only [tieBreakWinner, if_pos rfl, if_pos h1, if_neg hpos] at hres
      exact absurd hres (by decide)
  · intro he; subst he
    simp [tieBreakWinner]
  · intro h
    have h1 : 1 ≤ |ta - tn| := Int.one_le_abs (by omega)
    have hp : 0 < ta - tn := by omega
    simp [tieBreakWinner, h1, hp]
  · intro h
    have h1 : 1 ≤ |ta - tn| := Int.one_le_abs (by omega)
    have hp : ¬ (0 < ta - tn) := by omega
    simp [tieBreakWinner, h1, hp]

/-- Witness for C4 at concrete totals (scenario C: declared TIE with
raw totals 300 vs 250 is overridden to AFFIRMATIVE). -/
theorem tie_break_spec_witness : tieBreakWinner ("TIE") 300 250 = "AFFIRMATIVE" :=
  (tie_break_spec ("TIE") 300 250).2.2.1 (by decide)

/-! ### Concrete scaled-score computations -/

lemma pyRound_of_floor (x : ℚ) (n : ℤ) (hn : ⌊x⌋ = n) (h : x - (n : ℚ) < 1/2) :
    pyRound x = n := by
  simp only [pyRound, hn]
  rw [if_pos h]

lemma scale_300 : scale_to_100 300 = 857/10 := by
  unfold scale_to_100 roundTo1
  rw [show (10 : ℚ) * (((300 : ℤ) : ℚ) / (3.5 : ℚ)) = 6000/7 by push_cast; norm_num]
  rw [pyRound_of_floor _ 857 (by norm_num) (by norm_num)]
  norm_num

lemma scale_250 : scale_to_100 250 = 714/10 := by
  unfold scale_to_100 roundTo1
  rw [show (10 : ℚ) * (((250 : ℤ) : ℚ) / (3.5 : ℚ)) = 5000/7 by push_cast; norm_num]
  rw [pyRound_of_floor _ 714 (by norm_num) (by norm_num)]
  norm_num

lemma scale_zero : scale_to_100 0 = 0 := by
  unfold scale_to_100 roundTo1
  rw [show (10 : ℚ) * (((0 : ℤ) : ℚ) / (3.5 : ℚ)) = 0 by push_cast; norm_num]
  rw [pyRound_of_floor _ 0 (by norm_num) (by norm_num)]
  norm_num

lemma gap_300_250 : roundTo1 |scale_to_100 300 - scale_to_100 250| = 143/10 := by
  rw [scale_300, scale_250]
  unfold roundTo1
  rw [show (10 : ℚ) * |(857 : ℚ)/10 - 714/10| = 143 by rw [show |(857 : ℚ)/10 - 714/10| = 143/10 by rw [abs_of_nonneg] <;> norm_num]; norm_num]
  rw [pyRound_of_floor _ 143 (by norm_num) (by norm_num)]
  norm_num

lemma fmt1_of_int (q : ℚ) (n : ℤ) (hn : q * 10 = (n : ℚ)) (h0 : 0 ≤ q) :
    fmt1 q = toString (n.natAbs / 10) ++ "." ++ toString (n.natAbs % 10) := by
  simp only [fmt1, hn, Int.floor_intCast]
  rw [if_neg (not_lt.mpr h0)]
  simp

lemma fmt1_857 : fmt1 ((857 : ℚ)/10) = "85.7" := by
  rw [fmt1_of_int _ 857 (by norm_num) (by norm_num)]; rfl

lemma fmt1_714 : fmt1 ((714 : ℚ)/10) = "71.4" := by
  rw [fmt1_of_int _ 714 (by norm_num) (by norm_num)]; rfl

lemma fmt1_143 : fmt1 ((143 : ℚ)/10) = "14.3" := by
  rw [fmt1_of_int _ 143 (by norm_num) (by norm_num)]; rfl

lemma fmt1_zero : fmt1 (0 : ℚ) = "0.0" := by
  rw [fmt1_of_int _ 0 (by norm_num) (by norm_num)]; rfl

/-- C6: equal raw totals produce the TIE sentence; otherwise the
statement names the side with the strictly higher raw total, the scaled
point gap `round(|scaled_aff - scaled_neg|, 1)` and the margin label
determined by `|raw_diff|` (≤2 very close, ≤5 close but clear, ≤10
clear win, ≤20 dominant win, else overwhelming win); raw totals 300 vs
250 give "overwhelming win" and a gap of 14.3. -/
theorem final_statement_spec (ta tn : ℤ) :
    (ta = tn → finalStatement ta tn =
      "The round is a TIE. Final (/100): AFF " ++ fmt1 (scale_to_100 ta) ++ " - NEG " ++
        fmt1 (scale_to_100 tn) ++ ".") ∧
    (ta ≠ tn → finalStatement ta tn =
      "Congratulations, Team " ++ (if tn < ta then "AFFIRMATIVE" else "NEGATIVE") ++
        "! You win by " ++ fmt1 (roundTo1 |scale_to_100 ta - scale_to_100 tn|) ++ " points (" ++
        (if |ta - tn| ≤ 2 then "very close"
         else if |ta - tn| ≤ 5 then "close but clear"
         else if |ta - tn| ≤ 10 then "clear win"
         else if |ta - tn| ≤ 20 then "dominant win"
         else "overwhelming win") ++
        "). Final (/100): AFF " ++ fmt1 (scale_to_100 ta) ++ " - NEG " ++
        fmt1 (scale_to_100 tn) ++ ".") ∧
    margin_label (300 - 250) = "overwhelming win" ∧
    roundTo1 |scale_to_100 300 - scale_to_100 250| = 143 / 10 := by
  refine ⟨?_, ?_, by decide, by rw [gap_300_250]⟩
  · intro h
    have h0 : ta - tn = 0 := by omega
    simp [finalStatement, h0]
  · intro h
    have h0 : ¬ (ta - tn = 0) := by omega
    simp only [finalStatement, margin_label, if_neg h0, sub_pos]

/-- Witness for C6 at raw totals 300 vs 250. -/
theorem final_statement_spec_witness :
    finalStatement 300 250 =
      "Congratulations, Team AFFIRMATIVE! You win by 14.3 points (overwhelming win). Final (/100): AFF 85.7 - NEG 71.4." := by
  have h := (final_statement_spec 300 250).2.1 (by decide)
  rw [h, gap_300_250, scale_300, scale_250, fmt1_143, fmt1_857, fmt1_714]
  decide

set_option maxRecDepth 40000

/-- C3 (amended): every verdict produced by the full pipeline (i.e. on
the non-low-content branch) has, per side, exactly 4 notable moves whose
`time` fields are the four fixed slot names in order, regardless of the
move list the model produced; the low-content short-circuit verdict
instead has an empty `notable_moves` list. -/
theorem pipeline_moves_four_fixed_slots (t : String) (m : Verdict)
    (h : is_low_content t = false) :
    ((judgeOutput t m).analysis.affirmative.notable_moves.length = 4 ∧
     (judgeOutput t m).analysis.affirmative.notable_moves.map Move.time = SPEECH_SLOTS) ∧
    ((judgeOutput t m).analysis.negative.notable_moves.length = 4 ∧
     (judgeOutput t m).analysis.negative.notable_moves.map Move.time = SPEECH_SLOTS) := by
  unfold judgeOutput
  rw [h]
  simp only [Bool.false_eq_true, if_false]
  exact ⟨⟨rebalanceSide_len _ _ _, rebalanceSide_times _ _ _⟩,
         ⟨rebalanceSide_len _ _ _, rebalanceSide_times _ _ _⟩⟩

/-- Witness for the amended C3 on the default transcript. -/
theorem pipeline_moves_four_fixed_slots_witness :
    is_low_content DEFAULT_TRANSCRIPT = false ∧
    (judgeOutput DEFAULT_TRANSCRIPT empty_result).analysis.affirmative.notable_moves.length = 4 :=
  ⟨by decide,
   ((pipeline_moves_four_fixed_slots DEFAULT_TRANSCRIPT empty_result (by decide)).1).1⟩

/-- Counterexample to C3 as stated: the verdict returned by the
low-content short-circuit (empty transcript) has 0 notable moves per
side, not 4. -/
theorem low_content_moves_count_zero :
    (judgeOutput ("") empty_result).analysis.affirmative.notable_moves.length = 0 ∧
    ¬ ((judgeOutput ("") empty_result).analysis.affirmative.notable_moves.length = 4) := by
  constructor <;> decide

/-! ## Lemmas about the sanitizer -/

lemma lookup_setEntry_self (es : List (String × Val)) (k : String) (x : Val) :
    (setEntry es k x).lookup k = some x := by
  induction es with
  | nil => simp [setEntry]
  | cons e rest ih =>
    obtain ⟨k', v'⟩ := e
    by_cases h : k' = k
    · subst h; simp [setEntry]
    · simp [setEntry, h, List.lookup, beq_eq_false_iff_ne.mpr (Ne.symm h), ih]

lemma lookup_setEntry_ne (es : List (String × Val)) (k k' : String) (x : Val)
    (h : k' ≠ k) : (setEntry es k x).lookup k' = es.lookup k' := by
  induction es with
  | nil => simp [setEntry, List.lookup, beq_eq_false_iff_ne.mpr h]
  | cons e rest ih =>
    obtain ⟨ka, va⟩ := e
    by_cases hk : ka = k
    · subst hk
      simp [setEntry, List.lookup, beq_eq_false_iff_ne.mpr h, beq_eq_false_iff_ne.mpr (Ne.symm h)]
    · by_cases hk2 : k' = ka
      · subst hk2; simp [setEntry, hk, List.lookup]
      · simp [setEntry, hk, List.lookup, beq_eq_false_iff_ne.mpr hk2, ih]

lemma sanitizeSpeaker_dict (es : List (String × Val)) :
    sanitizeSpeaker (Val.vDict es) =
      Except.ok (Val.vDict
        (setEntry
          (setEntry (setEntry es "matter" (.vInt (int_clip ((es.lookup "matter").getD (.vInt 0)) 40)))
            "manner" (.vInt (int_clip (((setEntry es "matter" (.vInt (int_clip ((es.lookup "matter").getD (.vInt 0)) 40))).lookup "manner").getD (.vInt 0)) 30)))
          "method" (.vInt (int_clip (((setEntry (setEntry es "matter" (.vInt (int_clip ((es.lookup "matter").getD (.vInt 0)) 40)))
            "manner" (.vInt (int_clip (((setEntry es "matter" (.vInt (int_clip ((es.lookup "matter").getD (.vInt 0)) 40))).lookup "manner").getD (.vInt 0)) 30))).lookup "method").getD (.vInt 0)) 30)))) := rfl

lemma lookup_sp2_set_sp1 (es : List (String × Val)) (x : Val) :
    (setEntry es "speaker1" x).lookup "speaker2" = es.lookup "speaker2" :=
  lookup_setEntry_ne es _ _ x (by decide)

lemma lookup_sp3_set_sp1 (es : List (String × Val)) (x : Val) :
    (setEntry es "speaker1" x).lookup "speaker3" = es.lookup "speaker3" :=
  lookup_setEntry_ne es _ _ x (by decide)

lemma lookup_sp3_set_sp2 (es : List (String × Val)) (x : Val) :
    (setEntry es "speaker2" x).lookup "speaker3" = es.lookup "speaker3" :=
  lookup_setEntry_ne es _ _ x (by decide)

lemma lookup_rep_set_sp1 (es : List (String × Val)) (x : Val) :
    (setEntry es "speaker1" x).lookup "reply" = es.lookup "reply" :=
  lookup_setEntry_ne es _ _ x (by decide)

lemma lookup_rep_set_sp2 (es : List (String × Val)) (x : Val) :
    (setEntry es "speaker2" x).lookup "reply" = es.lookup "reply" :=
  lookup_setEntry_ne es _ _ x (by decide)

lemma lookup_rep_set_sp3 (es : List (String × Val)) (x : Val) :
    (setEntry es "speaker3" x).lookup "reply" = es.lookup "reply" :=
  lookup_setEntry_ne es _ _ x (by decide)

lemma lookup_negv_set_aff (es : List (String × Val)) (x : Val) :
    (setEntry es "affirmative" x).lookup "negative" = es.lookup "negative" :=
  lookup_setEntry_ne es _ _ x (by decide)

lemma isDict_exists (v : Val) (h : v.isDict = true) : ∃ es, v = Val.vDict es := by
  cases v <;> simp [Val.isDict] at h ⊢

lemma sanitizeReply_dict (es : List (String × Val)) :
    ∃ es2, sanitizeReply (Val.vDict es) = Except.ok (Val.vDict es2) := ⟨_, rfl⟩

lemma sanitizeSide_dict (aso : List (String × Val))
    (h1 : ((aso.lookup "speaker1").getD (Val.vDict [])).isDict = true)
    (h2 : ((aso.lookup "speaker2").getD (Val.vDict [])).isDict = true)
    (h3 : ((aso.lookup "speaker3").getD (Val.vDict [])).isDict = true)
    (h4 : ((aso.lookup "reply").getD (Val.vDict [])).isDict = true) :
    ∃ es2, sanitizeSide (Val.vDict aso) = Except.ok (Val.vDict es2) := by
  obtain ⟨s1es, hs1⟩ := isDict_exists _ h1
  obtain ⟨s2es, hs2⟩ := isDict_exists _ h2
  obtain ⟨s3es, hs3⟩ := isDict_exists _ h3
  obtain ⟨res, hr⟩ := isDict_exists _ h4
  obtain ⟨X1, hX1⟩ : ∃ X, sanitizeSpeaker (Val.vDict s1es) = Except.ok (Val.vDict X) := ⟨_, rfl⟩
  obtain ⟨X2, hX2⟩ : ∃ X, sanitizeSpeaker (Val.vDict s2es) = Except.ok (Val.vDict X) := ⟨_, rfl⟩
  obtain ⟨X3, hX3⟩ : ∃ X, sanitizeSpeaker (Val.vDict s3es) = Except.ok (Val.vDict X) := ⟨_, rfl⟩
  obtain ⟨XR, hXR⟩ := sanitizeReply_dict res
  simp only [sanitizeSide, dictGet, bind, Except.bind, hs1, hX1, dictSet,
    lookup_sp2_set_sp1, hs2, hX2, lookup_sp3_set_sp1, lookup_sp3_set_sp2, hs3, hX3,
    lookup_rep_set_sp1, lookup_rep_set_sp2, lookup_rep_set_sp3, hr, hXR, pure, Except.pure]
  exact ⟨_, rfl⟩

/-- C7 counterexample input: a response whose `scores` value is a
string.  `scores.get("affirmative", {})` then raises `AttributeError`. -/
theorem enforce_ranges_raises_on_nondict_scores :
    enforce_ranges (Val.vDict [("scores", Val.vStr ("oops"))]) =
      Except.error PyError.attributeError := rfl

/-- C7 (amended): `enforce_ranges` returns without raising on any
non-dict input (returned unchanged) and on any dict input whose
`scores`/side/speaker/reply sub-objects, where present, are dicts; it
can raise on other shapes (see the counterexample). -/
theorem enforce_ranges_ok_of_shape (r : Val) :
    (r.isDict = false → enforce_ranges r = Except.ok r) ∧
    (scoresShapeOk r = true → ∃ r2, enforce_ranges r = Except.ok r2) := by
  constructor
  · intro h
    cases r <;> first | rfl | simp [Val.isDict] at h
  · intro h
    simp only [scoresShapeOk, Bool.and_eq_true, List.all_cons, List.all_nil,
      Bool.and_true] at h
    obtain ⟨⟨hd, hs⟩, ⟨haffD, ha1, ha2, ha3, ha4⟩, hnegD, hn1, hn2, hn3, hn4⟩ := h
    obtain ⟨es, rfl⟩ := isDict_exists _ hd
    simp only [vFieldD] at hs haffD hnegD ha1 ha2 ha3 ha4 hn1 hn2 hn3 hn4
    obtain ⟨ses, hses⟩ := isDict_exists _ hs
    rw [hses] at haffD hnegD ha1 ha2 ha3 ha4 hn1 hn2 hn3 hn4
    simp only [vFieldD] at haffD hnegD ha1 ha2 ha3 ha4 hn1 hn2 hn3 hn4
    obtain ⟨aso, haso⟩ := isDict_exists _ haffD
    obtain ⟨nso, hnso⟩ := isDict_exists _ hnegD
    rw [haso] at ha1 ha2 ha3 ha4
    rw [hnso] at hn1 hn2 hn3 hn4
    simp only [vFieldD] at ha1 ha2 ha3 ha4 hn1 hn2 hn3 hn4
    obtain ⟨A, hA⟩ := sanitizeSide_dict aso ha1 ha2 ha3 ha4
    obtain ⟨N, hN⟩ := sanitizeSide_dict nso hn1 hn2 hn3 hn4
    simp only [enforce_ranges, dictGet, bind, Except.bind, hses, haso, hA, dictSet,
      lookup_negv_set_aff, hnso, hN, pure, Except.pure]
    exact ⟨_, rfl⟩

/-- Witness for the amended C7 on a well-shaped concrete response. -/
theorem enforce_ranges_ok_of_shape_witness :
    ∃ r2, enforce_ranges (Val.vDict [("scores", Val.vDict [])]) = Except.ok r2 :=
  (enforce_ranges_ok_of_shape (Val.vDict [("scores", Val.vDict [])])).2 (by decide)

/-- C2: every numeric score field is sanitized into its declared bounds
`[0, hi]`: coercible values are clamped (then truncated to `int`),
non-coercible or missing values become the lower bound 0; `matter=999`
becomes 40; and `sanitizeSpeaker` stores exactly this sanitized value
back into the field. -/
theorem sanitize_field_bounds (v : Val) (hi : ℚ) (hhi : 0 ≤ hi) :
    (0 ≤ int_clip v hi ∧ ((int_clip v hi : ℤ) : ℚ) ≤ hi) ∧
    (pyFloatCoerce v = Option.none → int_clip v hi = 0) ∧
    int_clip (Val.vInt 999) 40 = 40 ∧
    (∀ es : List (String × Val),
      ∃ es2, sanitizeSpeaker (Val.vDict es) = Except.ok (Val.vDict es2) ∧
        es2.lookup "matter" =
          some (Val.vInt (int_clip ((es.lookup "matter").getD (Val.vInt 0)) 40))) := by
  refine ⟨?_, ?_, ?_, ?_⟩
  · unfold int_clip clip
    cases h : pyFloatCoerce v with
    | none =>
      constructor
      · simp [pytrunc]
      · simp only [pytrunc, if_pos (le_refl (0 : ℚ))]
        norm_num
        exact hhi
    | some x =>
      have hq0 : (0 : ℚ) ≤ max 0 (min hi x) := le_max_left _ _
      have hqh : max 0 (min hi x) ≤ hi := max_le hhi (min_le_left _ _)
      rw [pytrunc, if_pos hq0]
      constructor
      · exact Int.floor_nonneg.mpr hq0
      · exact (Int.floor_le _).trans hqh
  · intro h
    unfold int_clip clip
    rw [h]
    simp [pytrunc]
  · have e : clip (Val.vInt 999) 0 40 = 40 := by
      show max 0 (min 40 ((999 : ℤ) : ℚ)) = 40
      rw [min_eq_left (by push_cast; norm_num), max_eq_right (by norm_num)]
    rw [int_clip, e, pytrunc, if_pos (by norm_num : (0 : ℚ) ≤ 40)]
    norm_num
  · intro es
    refine ⟨_, sanitizeSpeaker_dict es, ?_⟩
    rw [lookup_setEntry_ne _ _ _ _ (by decide), lookup_setEntry_ne _ _ _ _ (by decide),
      lookup_setEntry_self]

/-- Witness for C2 at a non-numeric string field value and cap 40. -/
theorem sanitize_field_bounds_witness :
    (0 : ℚ) ≤ 40 ∧
      (0 ≤ int_clip (Val.vStr ("nonsense")) 40 ∧
       ((int_clip (Val.vStr ("nonsense")) 40 : ℤ) : ℚ) ≤ 40) :=
  ⟨by norm_num, (sanitize_field_bounds (Val.vStr ("nonsense")) 40 (by norm_num)).1⟩

/-! ## Lemmas about the low-content gate -/

lemma pyStrip_eq_nil_iff (l : List Char) :
    pyStrip l = [] ↔ ∀ c ∈ l, isWs c = true := by
  unfold pyStrip
  rw [List.reverse_eq_nil_iff, List.dropWhile_eq_nil_iff]
  constructor
  · intro h c hc
    by_cases hdw : c ∈ l.dropWhile isWs
    · exact h c (by simpa using hdw)
    · have : c ∈ l.takeWhile isWs ++ l.dropWhile isWs := by
        rw [List.takeWhile_append_dropWhile]
        exact hc
      rcases List.mem_append.mp this with h1 | h1
      · exact List.mem_takeWhile_imp h1
      · exact absurd h1 hdw
  · intro h c hc
    exact h c ((List.dropWhile_sublist isWs).subset (by simpa using hc))

lemma splitChar_ne_nil (sep : Char) (l : List Char) : splitChar sep l ≠ [] := by
  induction l with
  | nil => simp [splitChar]
  | cons c cs ih =>
    by_cases h : c = sep
    · simp [splitChar, h]
    · simp only [splitChar, if_neg h]
      cases hs : splitChar sep cs with
      | nil => exact absurd hs ih
      | cons s ss => simp

lemma mem_of_mem_splitChar (sep : Char) (l seg : List Char) (c : Char)
    (hseg : seg ∈ splitChar sep l) (hc : c ∈ seg) : c ∈ l := by
  induction l generalizing seg with
  | nil =>
    simp only [splitChar, List.mem_singleton] at hseg
    subst hseg
    simp at hc
  | cons a cs ih =>
    by_cases h : a = sep
    · simp only [splitChar, if_pos h, List.mem_cons] at hseg
      rcases hseg with rfl | hseg
      · simp at hc
      · exact List.mem_cons_of_mem _ (ih seg hseg hc)
    · simp only [splitChar, if_neg h] at hseg
      cases hs : splitChar sep cs with
      | nil => exact absurd hs (splitChar_ne_nil sep cs)
      | cons s ss =>
        rw [hs] at hseg
        rcases List.mem_cons.mp hseg with rfl | hseg2
        · rcases List.mem_cons.mp hc with rfl | hc2
          · exact List.mem_cons_self _ _
          · exact List.mem_cons_of_mem _ (ih s (hs ▸ List.mem_cons_self _ _) hc2)
        · exact List.mem_cons_of_mem _ (ih seg (hs ▸ List.mem_cons_of_mem _ hseg2) hc)

lemma mem_of_mem_splitLines (l ln : List Char) (c : Char)
    (hln : ln ∈ splitLines l) (hc : c ∈ ln) : c ∈ l := by
  cases l with
  | nil => simp [splitLines] at hln
  | cons a as =>
    simp only [splitLines] at hln
    split at hln
    · exact mem_of_mem_splitChar '\n' _ _ c ((List.dropLast_sublist _).subset hln) hc
    · exact mem_of_mem_splitChar '\n' _ _ c hln hc

lemma speechLines_nil_of_ws (t : String) (h : ∀ c ∈ t.data, isWs c = true) :
    speechLines t = [] := by
  have hcl : contentLines t = [] := by
    rw [contentLines, List.filter_eq_nil_iff]
    intro ln hln
    have : pyStrip ln = [] :=
      (pyStrip_eq_nil_iff ln).mpr (fun c hc => h c (mem_of_mem_splitLines _ _ _ hln hc))
    simp [this]
  rw [speechLines, hcl, List.filter_nil]

/-- C5: a transcript is low-content iff the number of tag-matching lines
is below 3 or the stripped payload length is below 120; on that branch
the model response is never consulted and the returned verdict is the
canonical zero verdict with `winner=TIE`, all scores 0 and the exact TIE
final statement. -/
theorem low_content_gate_spec (t : String) :
    (is_low_content t = true ↔
      ((speechLines t).length < LOW_CONTENT_SPEECH_MIN ∨
       (gatePayload t).length < LOW_CONTENT_CHAR_MIN)) ∧
    (is_low_content t = true → ∀ m : Verdict, judgeOutput t m = lowContentResult) ∧
    lowContentResult.winner = "TIE" ∧
    lowContentResult.scores = { affirmative := zeroSide, negative := zeroSide } ∧
    lowContentResult.final_statement = "The round is a TIE. Final (/100): AFF 0.0 - NEG 0.0." := by
  refine ⟨?_, ?_, rfl, rfl, ?_⟩
  · by_cases hg : (t.data.isEmpty || (pyStrip t.data).isEmpty) = true
    · have hws : ∀ c ∈ t.data, isWs c = true := by
        rcases Bool.or_eq_true_iff.mp hg with h1 | h1
        · intro c hc
          rw [List.isEmpty_iff.mp h1] at hc
          simp at hc
        · exact (pyStrip_eq_nil_iff t.data).mp (List.isEmpty_iff.mp h1)
      have hsl : speechLines t = [] := speechLines_nil_of_ws t hws
      constructor
      · intro _
        left
        rw [hsl]
        decide
      · intro _
        unfold is_low_content
        rw [if_pos hg]
    · unfold is_low_content
      rw [if_neg hg]
      simp
  · intro h m
    unfold judgeOutput
    rw [h]
    simp only [if_true]
  · show "The round is a TIE. Final (/100): AFF " ++ fmt1 (scale_to_100 0) ++
      " - NEG " ++ fmt1 (scale_to_100 0) ++ "." = _
    rw [scale_zero, fmt1_zero]
    rfl

/-- Witness for C5: the empty transcript fires the gate and the output
ignores the model response. -/
theorem low_content_gate_spec_witness :
    judgeOutput ("") empty_result = lowContentResult :=
  (low_content_gate_spec ("")).2.1 (by decide) empty_result

/-! ## Lemmas about sentence counting (`_ensure_min_sentences`)

The counting argument works through an append law for `splitChar`: the
segments of `a ++ b` are the segments of `a` with the last one glued to
the first segment of `b`. -/

lemma splitChar_append (sep : Char) (a b : List Char) :
    splitChar sep (a ++ b) = sdAppend (splitChar sep a) (splitChar sep b) := by
  induction a with
  | nil =>
    simp only [List.nil_append, splitChar, sdAppend]
    cases hb : splitChar sep b with
    | nil => exact absurd hb (splitChar_ne_nil sep b)
    | cons y yt => simp
  | cons c cs ih =>
    rw [List.cons_append]
    by_cases h : c = sep
    · simp only [splitChar, if_pos h, ih]
      cases hcs : splitChar sep cs with
      | nil => exact absurd hcs (splitChar_ne_nil sep cs)
      | cons s ss => rfl
    · simp only [splitChar, if_neg h, ih]
      cases hcs : splitChar sep cs with
      | nil => exact absurd hcs (splitChar_ne_nil sep cs)
      | cons s ss =>
        cases ss with
        | nil =>
          cases hb : splitChar sep b with
          | nil => exact absurd hb (splitChar_ne_nil sep b)
          | cons y yt => simp [sdAppend]
        | cons z zs => simp [sdAppend]

lemma nsc_cons (x : List Char) (xs : List (List Char)) :
    nsc (x :: xs) = (if neSeg x then 1 else 0) + nsc xs := by
  by_cases h : neSeg x <;> simp [nsc, List.filter_cons, h] <;> omega

lemma neSeg_append_right (a b : List Char) (h : neSeg b = true) :
    neSeg (a ++ b) = true := by
  have hb : (b.any fun c => !(isWs c)) = true := h
  simp [neSeg, List.any_append, hb]

lemma nsc_sdAppend (xs : List (List Char)) (y : List Char) (yt : List (List Char)) :
    nsc (sdAppend xs (y :: yt)) =
      nsc xs.dropLast + (if neSeg (xs.getLastD [] ++ y) then 1 else 0) + nsc yt := by
  induction xs with
  | nil =>
    by_cases hy : neSeg y <;> simp [sdAppend, nsc, List.filter_cons, hy] <;> omega
  | cons x xs ih =>
    cases xs with
    | nil =>
      by_cases hy : neSeg (x ++ y) <;> simp [sdAppend, nsc, List.filter_cons, hy] <;> omega
    | cons z zs =>
      show nsc (x :: sdAppend (z :: zs) (y :: yt)) = _
      rw [nsc_cons, ih]
      rw [show (x :: z :: zs).dropLast = x :: (z :: zs).dropLast from rfl, nsc_cons]
      have hgl : (x :: z :: zs).getLastD [] = (z :: zs).getLastD [] := by
        simp [List.getLastD_cons]
      rw [hgl]
      omega

lemma nsc_le_dropLast_add_one (xs : List (List Char)) : nsc xs ≤ nsc xs.dropLast + 1 := by
  rcases List.eq_nil_or_concat xs with rfl | ⟨L, b, rfl⟩
  · simp [nsc]
  · rw [List.concat_eq_append, List.dropLast_concat]
    by_cases h : neSeg b <;> simp [nsc, List.filter_append, List.filter_cons, h]

/-- Decomposition of the sentence count of `T ++ S` at the boundary. -/
lemma sentenceCount_append (T S : List Char) :
    sentenceCount (T ++ S) =
      nsc ((splitChar '.' (T.map replPunct)).dropLast) +
        (if neSeg ((splitChar '.' (T.map replPunct)).getLastD [] ++
            (splitChar '.' (S.map replPunct)).headD []) then 1 else 0) +
        nsc ((splitChar '.' (S.map replPunct)).tail) := by
  cases heq : splitChar '.' (S.map replPunct) with
  | nil => exact absurd heq (splitChar_ne_nil _ _)
  | cons y yt =>
    show nsc (splitChar '.' ((T ++ S).map replPunct)) = _
    rw [List.map_append, splitChar_append, heq, nsc_sdAppend]
    simp

/-! ### Stripping lemmas -/

lemma getLast?_dropWhile {α : Type} (p : α → Bool) (l : List α) (h : l.dropWhile p ≠ []) :
    (l.dropWhile p).getLast? = l.getLast? := by
  induction l with
  | nil => simp at h
  | cons a as ih =>
    by_cases hp : p a
    · rw [List.dropWhile_cons_of_pos hp] at h ⊢
      have has : as ≠ [] := by
        rintro rfl
        exact h rfl
      rw [ih h]
      cases as with
      | nil => exact absurd rfl has
      | cons b bs => rw [List.getLast?_cons_cons]
    · rw [List.dropWhile_cons_of_neg hp]

lemma head?_not_ws_of_pyStrip (l : List Char) (x : Char)
    (h : (pyStrip l).head? = some x) : isWs x = false := by
  unfold pyStrip at h
  rw [List.head?_reverse] at h
  have hne : (List.dropWhile isWs (l.dropWhile isWs).reverse) ≠ [] := by
    intro h0
    rw [h0] at h
    simp at h
  rw [getLast?_dropWhile _ _ hne, List.getLast?_reverse] at h
  have h2 := List.head?_dropWhile_not isWs l
  rw [h] at h2
  exact h2

lemma pyStrip_append_block (t a : List Char)
    (hth : ∀ x, t.head? = some x → isWs x = false)
    (ha0 : a ≠ [])
    (hah : isWs (a.headD ' ') = false)
    (hal : isWs (a.getLastD ' ') = false) :
    pyStrip (t ++ ' ' :: a) = if t = [] then a else t ++ ' ' :: a := by
  obtain ⟨c, a', rfl⟩ := List.exists_cons_of_ne_nil ha0
  have hc : isWs c = false := hah
  rcases List.eq_nil_or_concat (c :: a') with habs | ⟨L, b, hLb⟩
  · simp at habs
  · have hb : isWs b = false := by
      have hgl : (c :: a').getLastD ' ' = b := by
        rw [hLb, List.concat_eq_append, List.getLastD_eq_getLast?, List.getLast?_concat]
        rfl
      rw [hgl] at hal
      exact hal
    cases t with
    | nil =>
      rw [if_pos rfl, List.nil_append]
      unfold pyStrip
      rw [List.dropWhile_cons_of_pos (by decide : isWs ' ' = true)]
      rw [List.dropWhile_cons_of_neg (by simp [hc])]
      rw [hLb, List.concat_eq_append, List.reverse_concat']
      rw [List.dropWhile_cons_of_neg (by simp [hb])]
      rw [List.reverse_cons, List.reverse_reverse]
    | cons d t' =>
      have hd : isWs d = false := hth d rfl
      rw [if_neg (List.cons_ne_nil d t')]
      unfold pyStrip
      rw [List.cons_append, List.dropWhile_cons_of_neg (by simp [hd])]
      rw [hLb, List.concat_eq_append]
      have hX : (d : Char) :: (t' ++ ' ' :: (L ++ [b])) = ((d :: t' ++ ' ' :: L) ++ [b]) := by
        simp
      rw [hX, List.reverse_concat', List.dropWhile_cons_of_neg (by simp [hb]),
        List.reverse_cons, List.reverse_reverse]

/-! ### The loop of `_ensure_min_sentences` appends at most 3 fillers -/

lemma emsLoop_ge3 (t : List Char) (c : ℕ) (hc : sentenceCount t = c) (hc4 : c < 4)
    (hth : ∀ x, t.head? = some x → isWs x = false) :
    3 ≤ sentenceCount (emsLoop t c 4 [fillerA, fillerB, fillerC]) := by
  by_cases ht0 : t = []
  · subst ht0
    have hc0 : c = 0 := by
      rw [← hc]
      rfl
    subst hc0
    decide
  · obtain ⟨d, t', rfl⟩ := List.exists_cons_of_ne_nil ht0
    have hd : isWs d = false := hth d rfl
    have e1 : pyStrip ((d :: t') ++ ' ' :: fillerA) = (d :: t') ++ ' ' :: fillerA := by
      rw [pyStrip_append_block _ _ hth (by decide) (by decide) (by decide),
        if_neg (List.cons_ne_nil d t')]
    have hth1 : ∀ x, ((d :: t') ++ ' ' :: fillerA).head? = some x → isWs x = false := by
      intro x hx
      rw [List.cons_append, List.head?_cons] at hx
      exact Option.some.inj hx ▸ hd
    have e2 : pyStrip (((d :: t') ++ ' ' :: fillerA) ++ ' ' :: fillerB) =
        ((d :: t') ++ ' ' :: fillerA) ++ ' ' :: fillerB := by
      rw [pyStrip_append_block _ _ hth1 (by decide) (by decide) (by decide),
        if_neg (by simp)]
    have hth2 : ∀ x, (((d :: t') ++ ' ' :: fillerA) ++ ' ' :: fillerB).head? = some x →
        isWs x = false := by
      intro x hx
      rw [List.cons_append, List.cons_append, List.head?_cons] at hx
      exact Option.some.inj hx ▸ hd
    have e3 : pyStrip ((((d :: t') ++ ' ' :: fillerA) ++ ' ' :: fillerB) ++ ' ' :: fillerC) =
        (((d :: t') ++ ' ' :: fillerA) ++ ' ' :: fillerB) ++ ' ' :: fillerC := by
      rw [pyStrip_append_block _ _ hth2 (by decide) (by decide) (by decide),
        if_neg (by simp)]
    have hXS := nsc_le_dropLast_add_one (splitChar '.' ((d :: t').map replPunct))
    have hcXS : nsc (splitChar '.' ((d :: t').map replPunct)) = c := hc
    interval_cases c
    · rw [show emsLoop (d :: t') 0 4 [fillerA, fillerB, fillerC] =
          pyStrip (pyStrip (pyStrip ((d :: t') ++ ' ' :: fillerA) ++ ' ' :: fillerB) ++
            ' ' :: fillerC) from rfl, e1, e2, e3,
        show (((d :: t') ++ ' ' :: fillerA) ++ ' ' :: fillerB) ++ ' ' :: fillerC =
          (d :: t') ++ lcSuffix3 by simp [lcSuffix3], sentenceCount_append,
        if_pos (neSeg_append_right _ _ (by decide)),
        show nsc ((splitChar '.' (lcSuffix3.map replPunct)).tail) = 2 from by decide]
      omega
    · rw [show emsLoop (d :: t') 1 4 [fillerA, fillerB, fillerC] =
          pyStrip (pyStrip (pyStrip ((d :: t') ++ ' ' :: fillerA) ++ ' ' :: fillerB) ++
            ' ' :: fillerC) from rfl, e1, e2, e3,
        show (((d :: t') ++ ' ' :: fillerA) ++ ' ' :: fillerB) ++ ' ' :: fillerC =
          (d :: t') ++ lcSuffix3 by simp [lcSuffix3], sentenceCount_append,
        if_pos (neSeg_append_right _ _ (by decide)),
        show nsc ((splitChar '.' (lcSuffix3.map replPunct)).tail) = 2 from by decide]
      omega
    · rw [show emsLoop (d :: t') 2 4 [fillerA, fillerB, fillerC] =
          pyStrip (pyStrip ((d :: t') ++ ' ' :: fillerA) ++ ' ' :: fillerB) from rfl, e1, e2,
        show ((d :: t') ++ ' ' :: fillerA) ++ ' ' :: fillerB =
          (d :: t') ++ lcSuffix2 by simp [lcSuffix2], sentenceCount_append,
        if_pos (neSeg_append_right _ _ (by decide)),
        show nsc ((splitChar '.' (lcSuffix2.map replPunct)).tail) = 1 from by decide]
      omega
    · rw [show emsLoop (d :: t') 3 4 [fillerA, fillerB, fillerC] =
          pyStrip ((d :: t') ++ ' ' :: fillerA) from rfl, e1,
        show (d :: t') ++ ' ' :: fillerA = (d :: t') ++ lcSuffix1 from rfl,
        sentenceCount_append,
        if_pos (neSeg_append_right _ _ (by decide)),
        show nsc ((splitChar '.' (lcSuffix1.map replPunct)).tail) = 0 from by decide]
      omega

/-- `_ensure_min_sentences(s, 4)` always yields at least 3 non-blank
sentence segments (only 3 fillers exist, and a filler appended after an
unterminated segment merges into it, so 4 is not guaranteed). -/
lemma ensureMin_ge3 (s : String) : 3 ≤ sentenceCountS (ensureMinSentences s 4) := by
  unfold ensureMinSentences
  by_cases h4 : 4 ≤ sentenceCount (pyStrip s.data)
  · rw [if_pos h4]
    show 3 ≤ sentenceCount (pyStrip s.data)
    omega
  · rw [if_neg h4]
    show 3 ≤ sentenceCount
      (emsLoop (pyStrip s.data) (sentenceCount (pyStrip s.data)) 4 [fillerA, fillerB, fillerC])
    exact emsLoop_ge3 _ _ rfl (by omega)
      (fun x hx => head?_not_ws_of_pyStrip s.data x hx)

/-- C8 (amended): for every input overview or improvements string the
normalized text contains at least 3 non-empty sentence segments (not 4:
only three filler sentences exist and a filler appended to text whose
last segment is unterminated merges into that segment). -/
theorem normalized_text_min_three_sentences (ov imp t : String) :
    3 ≤ sentenceCountS (normalizeOverview ("AFFIRMATIVE") t ov) ∧
    3 ≤ sentenceCountS (normalizeOverview ("NEGATIVE") t ov) ∧
    3 ≤ sentenceCountS (normalizeImprovements ("AFFIRMATIVE") imp) ∧
    3 ≤ sentenceCountS (normalizeImprovements ("NEGATIVE") imp) := by
  refine ⟨?_, ?_, ?_, ?_⟩ <;>
    (simp only [normalizeOverview, normalizeImprovements, overviewFallback,
      improvementsFallback]
     split_ifs <;> exact ensureMin_ge3 _)

/-- Counterexample to C8 as stated: the overview `"Hi"` (no
sentence-terminal mark) normalizes to a text with exactly 3 non-empty
segments, below the claimed threshold of 4. -/
theorem normalized_overview_three_segments :
    sentenceCountS (normalizeOverview ("AFFIRMATIVE") ("") ("Hi")) = 3 ∧
    ¬ (4 ≤ sentenceCountS (normalizeOverview ("AFFIRMATIVE") ("") ("Hi"))) := by
  constructor <;> decide

end Debattle
